import Mathlib

/-!
Shallow embedding of the identity-resolution core of the lead_generation
backend: `app/auth.py` (JWT verification, required/identity/optional
resolvers with a development bypass) and `app/odoo_connection_info.py`
(the priority-ordered tenant resolver).

External collaborators are modelled as oracles:
  * the PyJWT library is reflected in a `Token` record carrying the
    outcomes of its checks (header parse, kid, signature validity against
    the key published under that kid, issuer, audience, expiry, payload);
  * the JWKS cache is a list of `JWK` records (kid, whether
    `RSAAlgorithm.from_jwk` accepts the material);
  * `urlparse(...).path` is an oracle function `String → String`;
  * the relational store is a `Store` snapshot with per-query failure
    flags (a raised exception from `get_conn`/`cursor.execute`).
Python exceptions become `Except HTTPException`; mutation of
`request.state` is threaded explicitly, with `none` meaning the attribute
was never assigned. Python truthiness of strings/optional ints is
modelled by dedicated helpers. The verified-JWT payload is restricted to
the fields the code reads (`sub`, `email`, `tenant_id`, `roles`), with
`tenant_id` an optional integer.
-/

deriving instance DecidableEq for Except

namespace App

/-- FastAPI HTTPException: status code and detail string. -/
structure HTTPException where
  status : Nat
  detail : String
deriving DecidableEq, Repr

/-- Process environment variables read by auth.py. `none` = unset. -/
structure Env where
  DEV_AUTH_BYPASS : Option String := none
  DEV_USER_EMAIL : Option String := none
  DEFAULT_TENANT_ID : Option String := none
  NEXIUS_ISSUER : Option String := none
  NEXIUS_AUDIENCE : Option String := none
deriving DecidableEq, Repr

/-- Request headers read by auth.py. `none` = header absent. -/
structure Request where
  authorization : Option String := none
  xUserEmail : Option String := none
  xUserRoles : Option String := none
  xTenantID : Option String := none
deriving DecidableEq, Repr

/-- Mutable per-request `request.state`. The outer `Option` distinguishes
an attribute that was never assigned from one assigned `None`. -/
structure ReqState where
  tenant_id : Option (Option Int) := none
  roles : Option (List String) := none
deriving DecidableEq, Repr

/-- The JWT payload fields the code reads. `tenant_id` and `roles` model
`claims.get(...)`, absent keys being `none`. -/
structure Payload where
  sub : Option String := none
  email : Option String := none
  tenant_id : Option Int := none
  roles : Option (List String) := none
deriving DecidableEq, Repr

/-- One JWK from the cached key set: its `kid` entry and whether
`jwt.algorithms.RSAAlgorithm.from_jwk` accepts its material. -/
structure JWK where
  kid : Option String
  wellFormed : Bool
deriving DecidableEq, Repr

/-- A bearer token, reflected through the PyJWT oracle: whether
`get_unverified_header` succeeds, the header kid, whether the signature
verifies (RS256) under the key published for that kid, the `iss` and
`aud` claims, expiry, and the payload. -/
structure Token where
  headerOk : Bool
  kid : Option String
  sigOk : Bool
  iss : Option String := none
  aud : Option String := none
  expired : Bool := false
  payload : Payload := {}
deriving DecidableEq, Repr

/-- Claims dict synthesized from headers/environment (bypass and optional
paths build exactly this shape). -/
structure SynthClaims where
  sub : String
  email : String
  tenant_id : Option Int
  roles : List String
deriving DecidableEq, Repr

/-- Result claims of the resolvers: a synthesized dict tagged
`"bypass": True`, a synthesized dict tagged `"optional": True`, or the
verified JWT payload returned unchanged. -/
inductive Identity where
  | bypass (c : SynthClaims)
  | optionalSynth (c : SynthClaims)
  | verified (p : Payload)
deriving DecidableEq, Repr

/-- Whitespace stripped by Python `str.strip()` (ASCII range). -/
def isPySpace (c : Char) : Bool :=
  c = ' ' || c = '\t' || c = '\n' || c = '\x0b' || c = '\x0c' || c = '\r'

/-- Python `s.strip()`: drop leading and trailing whitespace. -/
def pyStrip (s : String) : String :=
  String.mk (((s.toList.dropWhile isPySpace).reverse.dropWhile isPySpace).reverse)

/-- Python `s.lower()` (ASCII case mapping, as used on ASCII flag values). -/
def pyLower (s : String) : String :=
  String.mk (s.toList.map Char.toLower)

/-- Python `s.startswith(pre)`. -/
def pyStartsWith (s pre : String) : Bool :=
  pre.toList.isPrefixOf s.toList

/-- Python `s[n:]` for a nonnegative index. -/
def pyDrop (s : String) (n : Nat) : String :=
  String.mk (s.toList.drop n)

/-- Helper of `pySplitComma`: the segment collected so far (reversed). -/
def pySplitCommaAux : List Char → List Char → List String
  | [], acc => [String.mk acc.reverse]
  | c :: rest, acc =>
      if c = ',' then String.mk acc.reverse :: pySplitCommaAux rest []
      else pySplitCommaAux rest (c :: acc)

/-- Python `s.split(",")` (note `"".split(",") == [""]`). -/
def pySplitComma (s : String) : List String :=
  pySplitCommaAux s.toList []

/-- Digit run to a number; `none` when empty or a non-digit appears. -/
def digitsToNat (l : List Char) : Option Nat :=
  if l = [] then none
  else
    l.foldl
      (fun acc c =>
        match acc with
        | none => none
        | some n => if c.isDigit then some (n * 10 + (c.toNat - 48)) else none)
      (some 0)

/-- Python `bool(s)` for an optional string: truthy iff set and nonempty. -/
def pyBool (o : Option String) : Bool :=
  match o with
  | none => false
  | some s => s ≠ ""

/-- Python `a or b` where `a` is an optional string and `b` a string:
empty/absent `a` falls back to `b`. -/
def pyOrStr (a : Option String) (b : String) : String :=
  match a with
  | none => b
  | some s => if s = "" then b else s

/-- Python `a or b` for two optional strings (empty string is falsy). -/
def pyOrOpt (a b : Option String) : Option String :=
  match a with
  | none => b
  | some s => if s = "" then b else some s

/-- Python `int(s)`, `ValueError` as `none`: strips whitespace, allows an
optional sign before the digits. (Digit-group underscores are not
modelled; no caller depends on them.) -/
def pyInt (s : String) : Option Int :=
  match (pyStrip s).toList with
  | '+' :: rest => (digitsToNat rest).map Int.ofNat
  | '-' :: rest => (digitsToNat rest).map (fun n => -(Int.ofNat n))
  | t => (digitsToNat t).map Int.ofNat

/-- Python falsiness of an optional integer: `None` and `0` are falsy. -/
def pyFalsyInt (o : Option Int) : Bool :=
  match o with
  | none => true
  | some v => v == 0

/-- auth.py `_is_truthy`. -/
def _is_truthy (val : Option String) : Bool :=
  match val with
  | none => false
  | some v => ["1", "true", "yes", "on"].contains (pyLower (pyStrip v))

/-- auth.py `_issuer`: the configured issuer, or a 500 when unset/blank. -/
def _issuer (env : Env) : Except HTTPException String :=
  match env.NEXIUS_ISSUER with
  | none => .error ⟨500, "SSO issuer not configured"⟩
  | some raw =>
      if raw = "" then .error ⟨500, "SSO issuer not configured"⟩
      else if pyStrip raw = "" then .error ⟨500, "SSO issuer not configured"⟩
      else .ok (pyStrip raw)

/-- auth.py `_audience`: the configured audience, blank meaning none. -/
def _audience (env : Env) : Option String :=
  let s := pyStrip (env.NEXIUS_AUDIENCE.getD "")
  if s = "" then none else some s

/-- auth.py `_public_key_for_token`: parse the unverified header, require
a truthy kid, scan the cached key set for the first kid match, and build
the public key from that JWK. -/
def _public_key_for_token (keys : List JWK) (tok : Token) :
    Except HTTPException JWK :=
  if ¬ tok.headerOk then .error ⟨401, "Invalid token header"⟩
  else
    match tok.kid with
    | none => .error ⟨401, "Missing kid in token header"⟩
    | some k =>
        if k = "" then .error ⟨401, "Missing kid in token header"⟩
        else
          match keys.find? (fun j => j.kid == some k) with
          | some j =>
              if j.wellFormed then .ok j
              else .error ⟨500, "Invalid JWK"⟩
          | none => .error ⟨401, "No matching JWK for kid"⟩

/-- PyJWT `jwt.decode` against the selected key: signature, expiry, then
the audience (only when `verify_aud`), then the issuer. Every failure is
wrapped by auth.py into a 401. -/
def jwtDecode (tok : Token) (aud : Option String) (iss : String) :
    Except HTTPException Payload :=
  if ¬ tok.sigOk then .error ⟨401, "Signature verification failed"⟩
  else if tok.expired then .error ⟨401, "Signature has expired"⟩
  else if (match aud with
           | some a => tok.aud != some a
           | none => false) then .error ⟨401, "Invalid audience"⟩
  else if tok.iss ≠ some iss then .error ⟨401, "Invalid issuer"⟩
  else .ok tok.payload

/-- auth.py `verify_jwt`: key lookup, then decode with the configured
audience (checked only when configured) and issuer (500 when unset). -/
def verify_jwt (env : Env) (keys : List JWK) (tok : Token) :
    Except HTTPException Payload :=
  match _public_key_for_token keys tok with
  | .error e => .error e
  | .ok _key =>
      let aud := _audience env
      match _issuer env with
      | .error e => .error e
      | .ok iss => jwtDecode tok aud iss

/-- The role-header parse shared by the synthesized-identity paths:
split on commas, strip, drop empties, default to `["admin"]`. -/
def parseRoles (hdr : String) : List String :=
  let rs := ((pySplitComma hdr).map pyStrip).filter (fun r => r ≠ "")
  if rs = [] then ["admin"] else rs

/-- The synthesized-identity construction shared verbatim by the bypass
branches of `require_auth`/`require_identity` and the fallback of
`require_optional_identity`. -/
def synthesize (env : Env) (req : Request) : SynthClaims :=
  let email := pyOrStr req.xUserEmail (env.DEV_USER_EMAIL.getD "dev@local")
  let roles := parseRoles (req.xUserRoles.getD "")
  let tenantRaw := pyOrOpt req.xTenantID env.DEFAULT_TENANT_ID
  let tenant_id := match tenantRaw with
    | none => none
    | some s => pyInt s
  ⟨email, email, tenant_id, roles⟩

/-- auth.py `require_auth`. Returns the claims (or the raised
HTTPException) together with the final `request.state`; assignments made
before a raise persist, as in Python. `tokOf` is the PyJWT oracle mapping
the bearer string to its token record. -/
def require_auth (env : Env) (keys : List JWK) (tokOf : String → Token)
    (req : Request) (st : ReqState) :
    Except HTTPException Identity × ReqState :=
  if _is_truthy env.DEV_AUTH_BYPASS then
    let c := synthesize env req
    (.ok (.bypass c), ⟨some c.tenant_id, some c.roles⟩)
  else
    let auth := req.authorization.getD ""
    if ¬ pyStartsWith auth "Bearer " then
      (.error ⟨401, "Missing bearer token"⟩, st)
    else
      match verify_jwt env keys (tokOf (pyDrop auth 7)) with
      | .error e => (.error e, st)
      | .ok p =>
          let st2 : ReqState := ⟨some p.tenant_id, some (p.roles.getD [])⟩
          if pyFalsyInt p.tenant_id then
            (.error ⟨403, "Missing tenant_id claim"⟩, st2)
          else (.ok (.verified p), st2)

/-- auth.py `require_identity`: as `require_auth` but a missing tenant_id
claim is permitted. -/
def require_identity (env : Env) (keys : List JWK) (tokOf : String → Token)
    (req : Request) (st : ReqState) :
    Except HTTPException Identity × ReqState :=
  if _is_truthy env.DEV_AUTH_BYPASS then
    let c := synthesize env req
    (.ok (.bypass c), ⟨some c.tenant_id, some c.roles⟩)
  else
    let auth := req.authorization.getD ""
    if ¬ pyStartsWith auth "Bearer " then
      (.error ⟨401, "Missing bearer token"⟩, st)
    else
      match verify_jwt env keys (tokOf (pyDrop auth 7)) with
      | .error e => (.error e, st)
      | .ok p => (.ok (.verified p), ⟨some p.tenant_id, some (p.roles.getD [])⟩)

/-- auth.py `require_optional_identity`: verify when a bearer is present
and `bool(os.getenv("NEXIUS_ISSUER"))`; any HTTPException from
verification is logged and swallowed, falling through to the synthesized
identity tagged `"optional"`. -/
def require_optional_identity (env : Env) (keys : List JWK)
    (tokOf : String → Token) (req : Request) (_st : ReqState) :
    Except HTTPException Identity × ReqState :=
  let auth := req.authorization.getD ""
  if pyStartsWith auth "Bearer " && pyBool env.NEXIUS_ISSUER then
    match verify_jwt env keys (tokOf (pyDrop auth 7)) with
    | .ok p => (.ok (.verified p), ⟨some p.tenant_id, some (p.roles.getD [])⟩)
    | .error _ =>
        let c := synthesize env req
        (.ok (.optionalSynth c), ⟨some c.tenant_id, some c.roles⟩)
  else
    let c := synthesize env req
    (.ok (.optionalSynth c), ⟨some c.tenant_id, some c.roles⟩)

/-- One row of the external `odoo_connections` table. -/
structure ConnRow where
  tenant_id : Int
  db_name : String
  active : Bool
deriving DecidableEq, Repr

/-- Snapshot of the external relational store, with a failure flag per
query site of `_resolve_tenant_id` (a raised exception inside the
corresponding `try` block). -/
structure Store where
  odoo_connections : List ConnRow := []
  tenant_users : List (String × Int) := []
  failConnByDb : Bool := false
  failConnList : Bool := false
  failUserLookup : Bool := false
deriving DecidableEq, Repr

/-- `SELECT tenant_id FROM odoo_connections WHERE db_name=.. AND
active=TRUE LIMIT 1`. -/
def qConnByDb (s : Store) (db : String) : Option Int :=
  (s.odoo_connections.find? (fun r => r.db_name == db && r.active)).map
    (fun r => r.tenant_id)

/-- `SELECT tenant_id, db_name FROM odoo_connections WHERE active=TRUE
LIMIT 2`. -/
def qActiveLimit2 (s : Store) : List ConnRow :=
  (s.odoo_connections.filter (fun r => r.active)).take 2

/-- `SELECT tenant_id FROM tenant_users WHERE user_id=email LIMIT 1`. -/
def qUserTenant (s : Store) (email : String) : Option Int :=
  (s.tenant_users.find? (fun r => r.1 == email)).map (fun r => r.2)

/-- Python `s.lstrip("/")`: drop every leading slash. -/
def lstripSlash (s : String) : String :=
  String.mk (s.toList.dropWhile (fun c => c = '/'))

/-- odoo_connection_info.py `_infer_db_from_dsn`, with
`urlparse(dsn).path` supplied by the oracle `urlPath` and the settings
constant `ODOO_POSTGRES_DSN` as `dsn` (a failed settings import is the
same as an unset DSN: the surrounding `except` returns `None`). -/
def _infer_db_from_dsn (urlPath : String → String) (dsn : Option String) :
    Option String :=
  match dsn with
  | none => none
  | some d =>
      if d = "" then none
      else
        let p := urlPath d
        let p := if p = "" then "/" else p
        let stripped := lstripSlash p
        if stripped = "" then none else some stripped

/-- The database-configuration phase of `_resolve_tenant_id` (its
priority 1): when a database name is inferred from the DSN, the
active-mapping lookup by that name; otherwise the
exactly-one-active-mapping rule over the first two active rows. A raised
query is no answer. -/
def tenantConfigStep (urlPath : String → String) (dsn : Option String)
    (s : Store) : Option Int :=
  match _infer_db_from_dsn urlPath dsn with
  | some db =>
      if s.failConnByDb then none else qConnByDb s db
  | none =>
      if s.failConnList then none
      else
        let rows := qActiveLimit2 s
        if rows.length = 1 then (rows.head?).map (fun r => r.tenant_id)
        else none

/-- odoo_connection_info.py `_resolve_tenant_id`: the configuration
phase, else the claimed tenant-id, else the user-to-tenant mapping by
email, else `none`. Every query failure is swallowed. -/
def _resolve_tenant_id (urlPath : String → String) (dsn : Option String)
    (s : Store) (email : String) (claim_tid : Option Int) : Option Int :=
  match tenantConfigStep urlPath dsn s with
  | some t => some t
  | none =>
      match claim_tid with
      | some c => some c
      | none =>
          if s.failUserLookup then none
          else qUserTenant s email

/-! Concrete fixtures for counterexamples and witnesses. -/

/-- A configured issuer value. -/
def issuer0 : String := "https://sso.example"

/-- A production-style environment: issuer set, bypass unset. -/
def envProd : Env := { NEXIUS_ISSUER := some issuer0 }

/-- A well-formed key published under kid1. -/
def key1 : JWK := ⟨some "kid1", true⟩

/-- A one-key cached key set. -/
def keys1 : List JWK := [key1]

/-- A verified payload with a nonzero tenant claim. -/
def goodPayload : Payload :=
  { sub := some "u1", email := some "u1@example.com",
    tenant_id := some 7, roles := some ["admin"] }

/-- A token that verifies under `envProd`/`keys1`. -/
def tokGood : Token :=
  { headerOk := true, kid := some "kid1", sigOk := true,
    iss := some issuer0, aud := none, expired := false,
    payload := goodPayload }

/-- The same verified payload but with tenant claim 0. -/
def payZero : Payload := { goodPayload with tenant_id := some 0 }

/-- A token that verifies but carries tenant claim 0. -/
def tokZero : Token := { tokGood with payload := payZero }

/-- A request presenting a bearer token. -/
def reqBearer : Request := { authorization := some "Bearer t" }

/-- A token whose kid matches a key with malformed material. -/
def tokBadKey : Token :=
  { headerOk := true, kid := some "kid1", sigOk := true }

/-- A token whose header carries no kid at all. -/
def tokNoKid : Token := { headerOk := true, kid := none, sigOk := true }

/-- A store with two active mappings and a user mapping for a@b.com. -/
def storeTwo : Store :=
  { odoo_connections := [⟨1, "dba", true⟩, ⟨2, "dbb", true⟩],
    tenant_users := [("a@b.com", 9)] }

/-- A store whose single active mapping points at a database other than
the one named by the DSN. -/
def storeOther : Store :=
  { odoo_connections := [⟨7, "otherdb", true⟩], tenant_users := [] }

/-- urlparse-path oracle for a DSN naming database mydb. -/
def upMydb : String → String := fun _ => "/mydb"

/-- A token signed by a kid absent from `keys1`. -/
def tokUnknown : Token :=
  { headerOk := true, kid := some "kidX", sigOk := true,
    iss := some issuer0, payload := goodPayload }

/-- A token that is valid except for being expired. -/
def tokExpired : Token := { tokGood with expired := true }

/-- `envProd` with an audience configured. -/
def envAud : Env := { envProd with NEXIUS_AUDIENCE := some "aud1" }

/-- A bypass-mode environment with explicit development defaults. -/
def envByp : Env :=
  { DEV_AUTH_BYPASS := some "1", DEV_USER_EMAIL := some "me@x",
    DEFAULT_TENANT_ID := some "5" }

/-- A request whose identity headers are present but empty. -/
def reqEmpty : Request := { xUserEmail := some "", xTenantID := some "" }

/-- A request with an empty email header but a set tenant header. -/
def reqEmptyEmail : Request :=
  { xUserEmail := some "", xTenantID := some "77" }

/-- A request with a set email header but an empty tenant header. -/
def reqEmptyTenant : Request :=
  { xUserEmail := some "bob@x", xTenantID := some "" }

end App


namespace App

/-! Theorems settling the claims. -/

/-- Claim C3: when the database-configuration phase of the tenant
resolver yields nothing, `_resolve_tenant_id` returns the claimed
tenant-id whenever one is supplied, for every store — in particular the
user-to-tenant mapping by email is never consulted (the store, and with
it that mapping, is universally quantified). -/
theorem c3_claim_outranks_email (urlPath : String → String)
    (dsn : Option String) (s : Store) (email : String) (t : Int)
    (hc : tenantConfigStep urlPath dsn s = none) :
    _resolve_tenant_id urlPath dsn s email (some t) = some t := by
  unfold _resolve_tenant_id
  rw [hc]

/-- Witness for C3, matching the spec scenario: two active mappings, no
database inferred from the DSN, claimed tenant-id 42, and an email that
does map to tenant 9 — the result is still 42. -/
theorem c3_claim_outranks_email_witness :
    tenantConfigStep (fun _ => "") none storeTwo = none ∧
    _resolve_tenant_id (fun _ => "") none storeTwo "a@b.com" (some 42)
      = some 42 :=
  ⟨by decide,
   c3_claim_outranks_email (fun _ => "") none storeTwo "a@b.com" 42 (by decide)⟩

end App

namespace App

/-- Store with the DSN-named mapping present but the DSN-based query
failing, plus a user mapping, so only the swallowed failure explains the
fallthrough. -/
def storeFailDb : Store :=
  { odoo_connections := [⟨3, "mydb", true⟩],
    tenant_users := [("a@b.com", 9)],
    failConnByDb := true }

/-- Store in which every query site raises. -/
def storeFailAll : Store :=
  { odoo_connections := [⟨3, "mydb", true⟩],
    tenant_users := [("a@b.com", 9)],
    failConnByDb := true, failConnList := true, failUserLookup := true }

/-- Claim C8: `_resolve_tenant_id` treats a raised database lookup as no
answer and continues the chain. First conjunct: when the DSN-based lookup
raises and a claimed tenant-id is supplied, the claim is returned. Second
conjunct: when every query raises and no claim is supplied, the result is
`none` (the function is total, so no error propagates). -/
theorem c8_store_failures_tolerated :
    (∀ (urlPath : String → String) (dsn : Option String) (db : String)
        (s : Store) (email : String) (t : Int),
        _infer_db_from_dsn urlPath dsn = some db →
        s.failConnByDb = true →
        _resolve_tenant_id urlPath dsn s email (some t) = some t)
    ∧ (∀ (urlPath : String → String) (dsn : Option String)
        (s : Store) (email : String),
        s.failConnByDb = true → s.failConnList = true →
        s.failUserLookup = true →
        _resolve_tenant_id urlPath dsn s email none = none) := by
  constructor
  · intro up dsn db s email t hdb hf
    simp [_resolve_tenant_id, tenantConfigStep, hdb, hf]
  · intro up dsn s email h1 h2 h3
    cases hdb : _infer_db_from_dsn up dsn with
    | none => simp [_resolve_tenant_id, tenantConfigStep, hdb, h1, h2, h3]
    | some db => simp [_resolve_tenant_id, tenantConfigStep, hdb, h1, h2, h3]

/-- Witness for C8 at concrete stores: with the DSN-based lookup raising,
the claimed 5 is returned even though an active mapping for the inferred
database exists; with every lookup raising and no claim, the result is
`none` even though a user mapping exists. -/
theorem c8_store_failures_tolerated_witness :
    _resolve_tenant_id upMydb (some "postgresql://u:p@h:5432/mydb")
        storeFailDb "a@b.com" (some 5) = some 5
    ∧ _resolve_tenant_id upMydb (some "postgresql://u:p@h:5432/mydb")
        storeFailAll "a@b.com" none = none :=
  ⟨c8_store_failures_tolerated.1 upMydb (some "postgresql://u:p@h:5432/mydb")
      "mydb" storeFailDb "a@b.com" 5 (by decide) (by decide),
   c8_store_failures_tolerated.2 upMydb (some "postgresql://u:p@h:5432/mydb")
      storeFailAll "a@b.com" (by decide) (by decide) (by decide)⟩

/-- Counterexample to claim C9: a database name is inferred from the DSN
and its lookup yields no tenant (the query does not raise and no active
mapping for that name exists), exactly one active mapping exists
system-wide (tenant 7), yet the resolver returns the claimed 42 — the
exactly-one-active-mapping rule was not attempted before the claim
fallback. -/
theorem c9_counterexample :
    _infer_db_from_dsn upMydb (some "postgresql://u:p@h:5432/mydb")
        = some "mydb"
    ∧ storeOther.failConnByDb = false
    ∧ qConnByDb storeOther "mydb" = none
    ∧ (qActiveLimit2 storeOther).length = 1
    ∧ ((qActiveLimit2 storeOther).head?).map (fun r => r.tenant_id) = some 7
    ∧ _resolve_tenant_id upMydb (some "postgresql://u:p@h:5432/mydb")
        storeOther "a@b.com" (some 42) = some 42 := by
  decide

/-- Amended C9: the exactly-one-active-mapping rule runs only when no
database name is inferred from the DSN. First conjunct: when a name is
inferred but its lookup yields nothing (raises or finds no row),
resolution skips that rule entirely and falls directly to the claimed
tenant-id. Second conjunct: when no name is inferred, the rule is
attempted and its single active mapping wins over any claim. -/
theorem c9_amended_step2_only_without_dsn :
    (∀ (urlPath : String → String) (dsn : Option String) (db : String)
        (s : Store) (email : String) (t : Int),
        _infer_db_from_dsn urlPath dsn = some db →
        (s.failConnByDb = true ∨ qConnByDb s db = none) →
        _resolve_tenant_id urlPath dsn s email (some t) = some t)
    ∧ (∀ (urlPath : String → String) (dsn : Option String)
        (s : Store) (email : String) (claim_tid : Option Int),
        _infer_db_from_dsn urlPath dsn = none →
        s.failConnList = false →
        (qActiveLimit2 s).length = 1 →
        _resolve_tenant_id urlPath dsn s email claim_tid
          = ((qActiveLimit2 s).head?).map (fun r => r.tenant_id)) := by
  constructor
  · intro up dsn db s email t hdb hq
    rcases hq with hf | hn
    · simp [_resolve_tenant_id, tenantConfigStep, hdb, hf]
    · cases hf : s.failConnByDb <;>
        simp [_resolve_tenant_id, tenantConfigStep, hdb, hf, hn]
  · intro up dsn s email claim_tid hdb hf hl
    cases hh : (qActiveLimit2 s).head? with
    | none =>
        rw [List.head?_eq_none_iff] at hh
        rw [hh] at hl
        simp at hl
    | some r =>
        simp [_resolve_tenant_id, tenantConfigStep, hdb, hf, hl, hh]

/-- Witness for the amended C9: the counterexample input for the first
conjunct, and a DSN-less store with a single active mapping (tenant 7)
beating a claimed 42 for the second. -/
theorem c9_amended_step2_only_without_dsn_witness :
    _resolve_tenant_id upMydb (some "postgresql://u:p@h:5432/mydb")
        storeOther "a@b.com" (some 42) = some 42
    ∧ _resolve_tenant_id (fun _ => "") none storeOther "a@b.com" (some 42)
        = some 7 := by
  constructor
  · exact c9_amended_step2_only_without_dsn.1 upMydb
      (some "postgresql://u:p@h:5432/mydb") "mydb" storeOther "a@b.com" 42
      (by decide) (Or.inr (by decide))
  · have h := c9_amended_step2_only_without_dsn.2 (fun _ => "") none
      storeOther "a@b.com" (some 42) (by decide) (by decide) (by decide)
    rw [h]; decide

end App

namespace App

/-- Counterexample to claim C7: with the key set publishing kid1 with
malformed material, a token bearing kid1 fails with status 500 — the
server-side configuration classification — while the credential-class
failure for a header with no kid carries 401. Malformed key material is
therefore NOT classified with the invalid-token credential class. -/
theorem c7_counterexample :
    _public_key_for_token [⟨some "kid1", false⟩] tokBadKey
        = .error ⟨500, "Invalid JWK"⟩
    ∧ _public_key_for_token [⟨some "kid1", false⟩] tokNoKid
        = .error ⟨401, "Missing kid in token header"⟩
    ∧ (500 : Nat) ≠ 401 := by decide

/-- Amended C7: when the kid-matching key is found but its material is
malformed, `_public_key_for_token` fails with the server-side
configuration classification (status 500, like issuer/JWKS configuration
failures), distinct from the 401 credential classification used for a
missing kid; the two classifications remain uncollapsed but malformed key
material falls on the configuration side. -/
theorem c7_amended_malformed_jwk_is_500 (keys : List JWK) (tok : Token)
    (k : String) (j : JWK)
    (hh : tok.headerOk = true) (hk : tok.kid = some k) (hne : k ≠ "")
    (hfind : keys.find? (fun x => x.kid == some k) = some j)
    (hbad : j.wellFormed = false) :
    _public_key_for_token keys tok = .error ⟨500, "Invalid JWK"⟩
    ∧ (∀ tok2 : Token, tok2.headerOk = true → tok2.kid = none →
        _public_key_for_token keys tok2
          = .error ⟨401, "Missing kid in token header"⟩) := by
  constructor
  · simp [_public_key_for_token, hh, hk, hne, hfind, hbad]
  · intro tok2 h2 hk2
    simp [_public_key_for_token, h2, hk2]

/-- Witness for the amended C7 at the counterexample inputs. -/
theorem c7_amended_malformed_jwk_is_500_witness :
    _public_key_for_token [⟨some "kid1", false⟩] tokBadKey
        = .error ⟨500, "Invalid JWK"⟩
    ∧ _public_key_for_token [⟨some "kid1", false⟩] tokNoKid
        = .error ⟨401, "Missing kid in token header"⟩ := by
  have h := c7_amended_malformed_jwk_is_500 [⟨some "kid1", false⟩] tokBadKey
    "kid1" ⟨some "kid1", false⟩ (by decide) (by decide) (by decide)
    (by decide) (by decide)
  exact ⟨h.1, h.2 tokNoKid (by decide) (by decide)⟩

/-- Counterexample to claim C4: the bearer token verifies and its claims
contain a tenant identifier, namely 0, yet `require_auth` fails with the
403 authorization error instead of returning the verified claims —
Python falsiness treats tenant 0 as missing. -/
theorem c4_counterexample :
    verify_jwt envProd keys1 tokZero = .ok payZero
    ∧ payZero.tenant_id = some 0
    ∧ require_auth envProd keys1 (fun _ => tokZero) reqBearer ⟨none, none⟩
        = (.error ⟨403, "Missing tenant_id claim"⟩,
           ⟨some (some 0), some ["admin"]⟩) := by decide

/-- Amended C4: in verified mode, after successful verification,
`require_auth` fails with the 403 authorization error (distinct from the
401 unauthenticated errors) exactly when the verified tenant claim is
Python-falsy — missing or zero; when the tenant claim is present and
nonzero it returns the verified claims unchanged. -/
theorem c4_amended_falsy_tenant_403 (env : Env) (keys : List JWK)
    (tokOf : String → Token) (req : Request) (st : ReqState) (p : Payload)
    (hb : _is_truthy env.DEV_AUTH_BYPASS = false)
    (ha : pyStartsWith (req.authorization.getD "") "Bearer " = true)
    (hv : verify_jwt env keys (tokOf (pyDrop (req.authorization.getD "") 7))
            = .ok p) :
    (pyFalsyInt p.tenant_id = true →
        require_auth env keys tokOf req st
          = (.error ⟨403, "Missing tenant_id claim"⟩,
             ⟨some p.tenant_id, some (p.roles.getD [])⟩))
    ∧ (pyFalsyInt p.tenant_id = false →
        require_auth env keys tokOf req st
          = (.ok (.verified p), ⟨some p.tenant_id, some (p.roles.getD [])⟩)) := by
  constructor <;> intro hf <;> simp [require_auth, hb, ha, hv, hf]

/-- Witness for the amended C4: tenant claim 0 yields the 403, tenant
claim 7 yields the verified claims. -/
theorem c4_amended_falsy_tenant_403_witness :
    require_auth envProd keys1 (fun _ => tokZero) reqBearer ⟨none, none⟩
        = (.error ⟨403, "Missing tenant_id claim"⟩,
           ⟨some (some 0), some ["admin"]⟩)
    ∧ require_auth envProd keys1 (fun _ => tokGood) reqBearer ⟨none, none⟩
        = (.ok (.verified goodPayload), ⟨some (some 7), some ["admin"]⟩) :=
  ⟨(c4_amended_falsy_tenant_403 envProd keys1 (fun _ => tokZero) reqBearer
      ⟨none, none⟩ payZero (by decide) (by decide) (by decide)).1 (by decide),
   (c4_amended_falsy_tenant_403 envProd keys1 (fun _ => tokGood) reqBearer
      ⟨none, none⟩ goodPayload (by decide) (by decide) (by decide)).2 (by decide)⟩

end App

namespace App

/-- Claim C6: `verify_jwt` checks the audience iff one is configured.
For a token whose key is found, with valid signature, not expired, and
matching issuer: when an audience is configured and the token audience
differs, verification fails with a 401; when no audience is configured,
the very same token succeeds whatever its audience claim is. -/
theorem c6_audience_checked_iff_configured (env : Env) (keys : List JWK)
    (tok : Token) (j : JWK) (iss : String)
    (hk : _public_key_for_token keys tok = .ok j)
    (hi : _issuer env = .ok iss)
    (hsig : tok.sigOk = true) (hexp : tok.expired = false)
    (hiss : tok.iss = some iss) :
    (∀ a, _audience env = some a → tok.aud ≠ some a →
        verify_jwt env keys tok = .error ⟨401, "Invalid audience"⟩)
    ∧ (_audience env = none → verify_jwt env keys tok = .ok tok.payload) := by
  constructor
  · intro a haud hne
    simp [verify_jwt, hk, hi, jwtDecode, hsig, hexp, haud, hne, hiss]
  · intro haud
    simp [verify_jwt, hk, hi, jwtDecode, hsig, hexp, haud, hiss]

/-- Witness for C6: with audience aud1 configured, `tokGood` (no aud
claim) is rejected 401; with no audience configured, the same token
succeeds. -/
theorem c6_audience_checked_iff_configured_witness :
    verify_jwt envAud keys1 tokGood = .error ⟨401, "Invalid audience"⟩
    ∧ verify_jwt envProd keys1 tokGood = .ok goodPayload :=
  ⟨(c6_audience_checked_iff_configured envAud keys1 tokGood key1 issuer0
      (by decide) (by decide) (by decide) (by decide) (by decide)).1 "aud1"
      (by decide) (by decide),
   (c6_audience_checked_iff_configured envProd keys1 tokGood key1 issuer0
      (by decide) (by decide) (by decide) (by decide) (by decide)).2
      (by decide)⟩

/-- Claim C5: in verified mode, a bearer token whose header kid matches
no key in the cached key set makes `require_auth` fail with the 401
unauthenticated error (never an unhandled fault — the embedding is a
total function into this error), and the request state is returned
exactly as it was: no tenant-id is attached. -/
theorem c5_unknown_kid_401_state_untouched (env : Env) (keys : List JWK)
    (tokOf : String → Token) (req : Request) (st : ReqState) (k : String)
    (hb : _is_truthy env.DEV_AUTH_BYPASS = false)
    (ha : pyStartsWith (req.authorization.getD "") "Bearer " = true)
    (hh : (tokOf (pyDrop (req.authorization.getD "") 7)).headerOk = true)
    (hk : (tokOf (pyDrop (req.authorization.getD "") 7)).kid = some k)
    (hne : k ≠ "")
    (hmiss : ∀ j ∈ keys, j.kid ≠ some k) :
    require_auth env keys tokOf req st
      = (.error ⟨401, "No matching JWK for kid"⟩, st) := by
  have hfind : keys.find? (fun j => j.kid == some k) = none := by
    rw [List.find?_eq_none]
    intro j hj
    simpa using hmiss j hj
  simp [require_auth, hb, ha, verify_jwt, _public_key_for_token, hh, hk,
        hne, hfind]

/-- Witness for C5: `tokUnknown` carries kidX, absent from `keys1`; the
initial state (nothing attached) is returned unchanged alongside the
401. -/
theorem c5_unknown_kid_401_state_untouched_witness :
    require_auth envProd keys1 (fun _ => tokUnknown) reqBearer ⟨none, none⟩
      = (.error ⟨401, "No matching JWK for kid"⟩, ⟨none, none⟩) :=
  c5_unknown_kid_401_state_untouched envProd keys1 (fun _ => tokUnknown)
    reqBearer ⟨none, none⟩ "kidX" (by decide) (by decide) (by decide)
    (by decide) (by decide) (by decide)

/-- Claim C2: `require_optional_identity` never propagates an error: its
result is always `ok`; when a bearer is presented, the issuer is set, and
verification fails for any reason, it returns the synthesized identity
tagged optional; when no bearer is presented it synthesizes directly,
the key set and token oracle being irrelevant (universally quantified,
so verification is provably not consulted). -/
theorem c2_optional_never_fails (env : Env) (keys : List JWK)
    (tokOf : String → Token) (req : Request) (st : ReqState) :
    ((require_optional_identity env keys tokOf req st).1.isOk = true)
    ∧ (∀ e : HTTPException,
        pyStartsWith (req.authorization.getD "") "Bearer " = true →
        pyBool env.NEXIUS_ISSUER = true →
        verify_jwt env keys (tokOf (pyDrop (req.authorization.getD "") 7))
          = .error e →
        require_optional_identity env keys tokOf req st
          = (.ok (.optionalSynth (synthesize env req)),
             ⟨some (synthesize env req).tenant_id,
              some (synthesize env req).roles⟩))
    ∧ (pyStartsWith (req.authorization.getD "") "Bearer " = false →
        require_optional_identity env keys tokOf req st
          = (.ok (.optionalSynth (synthesize env req)),
             ⟨some (synthesize env req).tenant_id,
              some (synthesize env req).roles⟩)) := by
  refine ⟨?_, ?_, ?_⟩
  · by_cases hc : (pyStartsWith (req.authorization.getD "") "Bearer "
        && pyBool env.NEXIUS_ISSUER) = true
    · cases hv : verify_jwt env keys (tokOf (pyDrop (req.authorization.getD "") 7)) with
      | error e => simp [require_optional_identity, hc, hv, Except.isOk, Except.toBool]
      | ok p => simp [require_optional_identity, hc, hv, Except.isOk, Except.toBool]
    · simp [require_optional_identity, hc, Except.isOk, Except.toBool]
  · intro e ha hi hv
    simp [require_optional_identity, ha, hi, hv]
  · intro ha
    simp [require_optional_identity, ha]

/-- Witness for C2: an expired token with issuer configured falls back to
the optional synthesized identity; a request with no bearer synthesizes
directly. -/
theorem c2_optional_never_fails_witness :
    require_optional_identity envProd keys1 (fun _ => tokExpired)
        reqBearer ⟨none, none⟩
      = (.ok (.optionalSynth (synthesize envProd reqBearer)),
         ⟨some (synthesize envProd reqBearer).tenant_id,
          some (synthesize envProd reqBearer).roles⟩)
    ∧ require_optional_identity envProd keys1 (fun _ => tokGood)
        {} ⟨none, none⟩
      = (.ok (.optionalSynth (synthesize envProd {})),
         ⟨some (synthesize envProd {}).tenant_id,
          some (synthesize envProd {}).roles⟩) :=
  ⟨(c2_optional_never_fails envProd keys1 (fun _ => tokExpired) reqBearer
      ⟨none, none⟩).2.1 ⟨401, "Signature has expired"⟩ (by decide)
      (by decide) (by decide),
   (c2_optional_never_fails envProd keys1 (fun _ => tokGood) {}
      ⟨none, none⟩).2.2 (by decide)⟩

end App

namespace App

/-- Claim C1: with `DEV_AUTH_BYPASS` unset or non-truthy, `require_auth`
and `require_identity` never produce a synthesized bypass identity: any
successful return is exactly the claims produced by `verify_jwt` on the
presented bearer token (otherwise the call fails). -/
theorem c1_bypass_unreachable_when_flag_off (env : Env) (keys : List JWK)
    (tokOf : String → Token) (req : Request) (st : ReqState)
    (hb : _is_truthy env.DEV_AUTH_BYPASS = false) :
    (∀ ident st2,
        require_auth env keys tokOf req st = (.ok ident, st2) →
        ∃ p, verify_jwt env keys (tokOf (pyDrop (req.authorization.getD "") 7))
              = .ok p
          ∧ ident = .verified p)
    ∧ (∀ ident st2,
        require_identity env keys tokOf req st = (.ok ident, st2) →
        ∃ p, verify_jwt env keys (tokOf (pyDrop (req.authorization.getD "") 7))
              = .ok p
          ∧ ident = .verified p) := by
  constructor
  · intro ident st2 h
    by_cases ha : pyStartsWith (req.authorization.getD "") "Bearer " = true
    · cases hv : verify_jwt env keys (tokOf (pyDrop (req.authorization.getD "") 7)) with
      | error e => simp [require_auth, hb, ha, hv] at h
      | ok p =>
          by_cases hf : pyFalsyInt p.tenant_id = true
          · simp [require_auth, hb, ha, hv, hf] at h
          · refine ⟨p, rfl, ?_⟩
            have h1 := congrArg Prod.fst h
            simp [require_auth, hb, ha, hv, hf] at h1
            exact h1.symm
    · simp [require_auth, hb, ha] at h
  · intro ident st2 h
    by_cases ha : pyStartsWith (req.authorization.getD "") "Bearer " = true
    · cases hv : verify_jwt env keys (tokOf (pyDrop (req.authorization.getD "") 7)) with
      | error e => simp [require_identity, hb, ha, hv] at h
      | ok p =>
          refine ⟨p, rfl, ?_⟩
          have h1 := congrArg Prod.fst h
          simp [require_identity, hb, ha, hv] at h1
          exact h1.symm
    · simp [require_identity, hb, ha] at h

/-- Witness for C1: with bypass unset, a successful `require_auth` on a
valid token yields the verified payload itself. -/
theorem c1_bypass_unreachable_when_flag_off_witness :
    ∃ p, verify_jwt envProd keys1
          ((fun _ => tokGood) (pyDrop (reqBearer.authorization.getD "") 7))
          = .ok p
      ∧ Identity.verified goodPayload = .verified p :=
  (c1_bypass_unreachable_when_flag_off envProd keys1 (fun _ => tokGood)
      reqBearer ⟨none, none⟩ (by decide)).1 (.verified goodPayload)
    ⟨some (some 7), some ["admin"]⟩ (by decide)

/-- Claim C10: in bypass and optional modes a present-but-empty header is
treated exactly as an absent header, each header independently: for every
request whose X-User-Email header is the empty string, the synthesized
email is the environment default (`DEV_USER_EMAIL`, else dev@local) and
the results of bypass-mode `require_auth` and bearer-less
`require_optional_identity` equal those for the request with that header
removed; and for every request whose X-Tenant-ID header is the empty
string, the synthesized tenant-id falls back to parsing
`DEFAULT_TENANT_ID` (`none` when unset), with the same
equal-to-absent-header results. -/
theorem c10_empty_headers_as_absent (env : Env) (keys : List JWK)
    (tokOf : String → Token) (req : Request) (st : ReqState) :
    (req.xUserEmail = some "" →
        (synthesize env req).email = env.DEV_USER_EMAIL.getD "dev@local"
        ∧ synthesize env req = synthesize env { req with xUserEmail := none }
        ∧ (_is_truthy env.DEV_AUTH_BYPASS = true →
            require_auth env keys tokOf req st
              = require_auth env keys tokOf
                  { req with xUserEmail := none } st)
        ∧ (pyStartsWith (req.authorization.getD "") "Bearer " = false →
            require_optional_identity env keys tokOf req st
              = require_optional_identity env keys tokOf
                  { req with xUserEmail := none } st))
    ∧ (req.xTenantID = some "" →
        (synthesize env req).tenant_id = env.DEFAULT_TENANT_ID.bind pyInt
        ∧ synthesize env req = synthesize env { req with xTenantID := none }
        ∧ (_is_truthy env.DEV_AUTH_BYPASS = true →
            require_auth env keys tokOf req st
              = require_auth env keys tokOf
                  { req with xTenantID := none } st)
        ∧ (pyStartsWith (req.authorization.getD "") "Bearer " = false →
            require_optional_identity env keys tokOf req st
              = require_optional_identity env keys tokOf
                  { req with xTenantID := none } st)) := by
  constructor
  · intro he
    have hs : synthesize env req
        = synthesize env { req with xUserEmail := none } := by
      simp [synthesize, he, pyOrStr]
    refine ⟨?_, hs, ?_, ?_⟩
    · simp [synthesize, he, pyOrStr]
    · intro hb
      simp [require_auth, hb, hs]
    · intro ha
      simp [require_optional_identity, ha, hs]
  · intro ht
    have hs : synthesize env req
        = synthesize env { req with xTenantID := none } := by
      simp [synthesize, ht, pyOrOpt]
    refine ⟨?_, hs, ?_, ?_⟩
    · simp only [synthesize, ht, pyOrOpt]
      cases env.DEFAULT_TENANT_ID <;> simp
    · intro hb
      simp [require_auth, hb, hs]
    · intro ha
      simp [require_optional_identity, ha, hs]

/-- Witness for C10, exercising each header independently: an empty email
header beside a set tenant header synthesizes email me@x, and an empty
tenant header beside a set email header falls back to
`DEFAULT_TENANT_ID=5`. -/
theorem c10_empty_headers_as_absent_witness :
    (synthesize envByp reqEmptyEmail).email = "me@x"
    ∧ (synthesize envByp reqEmptyTenant).tenant_id = some 5 := by
  have h1 := c10_empty_headers_as_absent envByp keys1 (fun _ => tokGood)
    reqEmptyEmail ⟨none, none⟩
  have h2 := c10_empty_headers_as_absent envByp keys1 (fun _ => tokGood)
    reqEmptyTenant ⟨none, none⟩
  exact ⟨(h1.1 rfl).1.trans (by decide), (h2.2 rfl).1.trans (by decide)⟩

end App
